import Mathlib

/-!
Verification development for the GAP repository (differentially private GNN
training).  The definitions below are a shallow embedding of the pieces of
`src/methods.py`, `src/pysrc/methods/gap/gap_ndp.py` and
`src/core/attacks/nmi.py` that the verified properties are about:
constructor-time assertions, data-loader selection, the order of randomized
operations during `precompute_aggregations`/`fit`, the noise-calibration
lifecycle, auto-delta resolution, and the membership-inference sample
generator.
-/

namespace GAPModel

/-- DP protection level (`dp_level` argument, `methods.py` lines 17, 22). -/
inductive DPLevel
  | edge
  | node
deriving DecidableEq, Repr

/-- Perturbation method for GAP (`perturbation` argument, `methods.py` line 25). -/
inductive Perturbation
  | aggr
  | graph
deriving DecidableEq, Repr

/-- Data-loading stage (`data_loader(stage)`). -/
inductive Stage
  | train
  | val
  | test
deriving DecidableEq, Repr

/-- The kind of loader a `data_loader` method returns:
  `poisson` for `PoissonDataLoader`, `fullBatchList` for the singleton list
  `[self.data]`, `neighborShuffle` for a `torch_geometric` `NeighborLoader`
  with `shuffle=True` and a fixed `batch_size`, and `inherited` for the loader
  the parent class `GAPINF` returns (its code is outside `src/`). -/
inductive LoaderKind
  | poisson
  | fullBatchList
  | neighborShuffle
  | inherited
deriving DecidableEq, Repr

/-- Shape parameters of a `GAP` instance (`methods.py` `GAP.__init__`)
  relevant to the verified properties.  Integer-valued Python arguments that
  are compared against 0 by the constructor asserts are kept as `Int`. -/
structure GAPConfig where
  dpLevel : DPLevel
  perturbation : Perturbation
  hops : Nat
  maxDegree : Int
  batchSize : Int
  encoderLayers : Nat
  preEpochs : Nat
  epochs : Nat
deriving DecidableEq, Repr

/-- Shape parameters of a `GraphSAGEModel` instance (`methods.py`
  `GraphSAGEModel.__init__`). -/
structure SAGEConfig where
  dpLevel : DPLevel
  mpLayers : Nat
  maxDegree : Int
  batchSize : Int
  epochs : Nat
deriving DecidableEq, Repr

/-- Shape parameters of a `GAPNDP` instance (`gap_ndp.py` `GAPNDP.__init__`);
  the method is always node-level private. -/
structure NDPConfig where
  hops : Nat
  maxDegree : Int
  batchSize : Int
  preEpochs : Nat
  epochs : Nat
deriving DecidableEq, Repr

/-- The conjunction of the four `assert` statements at the top of
  `GAP.__init__` (`methods.py` lines 47-50):
  `dp_level == 'edge' or perturbation == 'aggr'`,
  `dp_level == 'edge' or hops == 0 or max_degree > 0`,
  `dp_level == 'edge' or batch_size > 0`,
  `encoder_layers == 0 or pre_epochs > 0`.
  Construction succeeds iff this returns `true`; the asserts run before any
  other statement of the constructor, so a `false` here aborts construction
  before any training or calibration code can run. -/
def GAP.initOk (c : GAPConfig) : Bool :=
  (c.dpLevel == .edge || c.perturbation == .aggr) &&
  (c.dpLevel == .edge || c.hops == 0 || c.maxDegree > 0) &&
  (c.dpLevel == .edge || c.batchSize > 0) &&
  (c.encoderLayers == 0 || c.preEpochs > 0)

/-- The conjunction of the four `assert` statements at the top of
  `GraphSAGEModel.__init__` (`methods.py` lines 275-278):
  `mp_layers >= 1`,
  `dp_level == 'edge' or mp_layers == 1`,
  `dp_level == 'edge' or max_degree > 0`,
  `dp_level == 'edge' or batch_size > 0`. -/
def SAGE.initOk (c : SAGEConfig) : Bool :=
  (c.mpLayers ≥ 1) &&
  (c.dpLevel == .edge || c.mpLayers == 1) &&
  (c.dpLevel == .edge || c.maxDegree > 0) &&
  (c.dpLevel == .edge || c.batchSize > 0)

/-- `GAP.data_loader` (`methods.py` lines 235-241): builds a `TensorDataset`
  from the masked features/labels and always returns a `PoissonDataLoader`
  (with `batch_size = len(dataset)` when `self.batch_size == 0`), for every
  stage and every DP level. -/
def GAP.dataLoaderKind (_c : GAPConfig) (_stage : Stage) : LoaderKind :=
  .poisson

/-- `GraphSAGEModel.data_loader` (`methods.py` lines 381-395): with
  `batch_size == 0` it returns the singleton list `[self.data]` (full-batch);
  otherwise it returns a `NeighborLoader` with `shuffle=True` and fixed
  `batch_size=self.batch_size` — a shuffle-and-slice loader, for every stage
  and every DP level. -/
def SAGE.dataLoaderKind (c : SAGEConfig) (_stage : Stage) : LoaderKind :=
  if c.batchSize = 0 then .fullBatchList else .neighborShuffle

/-- `GAPNDP.data_loader` (`gap_ndp.py` lines 98-102): takes the loader the
  parent `GAPINF` class builds (code outside `src/`, abstracted as `base`)
  and, for the `'train'` stage only, re-wraps its dataset in a
  `PoissonDataLoader` with `batch_size=self.batch_size`. -/
def GAPNDP.dataLoaderKind (base : LoaderKind) (stage : Stage) : LoaderKind :=
  if stage = .train then .poisson else base

/-! ### Auto-delta resolution and the `GAPNDP.calibrate` delta bug -/

/-- The `delta` constructor argument: the literal string `'auto'` or a
  numeric value. -/
inductive DeltaParam
  | auto
  | num (q : ℚ)
deriving DecidableEq, Repr

/-- The `epsilon` argument: `np.inf` or a finite value (`np.isinf` is the
  only test the code performs on it). -/
inductive Eps
  | inf
  | fin (q : ℚ)
deriving DecidableEq, Repr

/-- `len(str (n))` for a non-negative Python integer `n`: the number of
  decimal digits (1 for `0`). -/
def numDigits (n : Nat) : Nat :=
  if n < 10 then 1 else numDigits (n / 10) + 1
decreasing_by
  exact Nat.div_lt_self (by omega) (by omega)

/-- The Python exceptions the embedded code can raise. -/
inductive PyErr
  | assertionError
  | unboundLocalError
deriving DecidableEq, Repr

/-- `GAP.init_privacy_mechanisms`, auto-delta branch (`methods.py` lines
  147-152): when `delta == 'auto'`, `delta` becomes `0.0` if `epsilon` is
  infinite, else `1 / 10 ** len(str(data_size))` with
  `data_size = num_edges` for edge-level DP and `num_nodes` for node-level
  DP. -/
def GAP.resolveAutoDelta (eps : Eps) (dpLevel : DPLevel)
    (numEdges numNodes : Nat) : ℚ :=
  if eps = .inf then 0
  else 1 / 10 ^ numDigits (if dpLevel = .edge then numEdges else numNodes)

/-- `GraphSAGEModel.init_privacy_mechanisms`, auto-delta branch
  (`methods.py` lines 333-337): `0.0` if `epsilon` is infinite, else
  `1 / 10 ** len(str(num_edges))` — `num_edges` for both DP levels. -/
def SAGE.resolveAutoDelta (eps : Eps) (numEdges : Nat) : ℚ :=
  if eps = .inf then 0 else 1 / 10 ^ numDigits numEdges

/-- `GAPNDP.calibrate`, auto-delta branch (`gap_ndp.py` line 69): `0.0` if
  `epsilon` is infinite, else `1 / 10 ** len(str(num_train_nodes))`. -/
def GAPNDP.resolveAutoDelta (eps : Eps) (numTrainNodes : Nat) : ℚ :=
  if eps = .inf then 0 else 1 / 10 ^ numDigits numTrainNodes

/-- The value the local variable `delta` holds when
  `composed_mechanism.calibrate(eps=..., delta=delta)` runs in
  `GAPNDP.calibrate` (`gap_ndp.py` lines 67-72).  The local `delta` is
  assigned only inside the `if self.delta == 'auto':` branch; when the caller
  supplied a numeric `self.delta`, line 72 reads an unassigned local and
  Python raises `UnboundLocalError`. -/
def GAPNDP.deltaUsedInCalibrate (deltaParam : DeltaParam) (eps : Eps)
    (numTrainNodes : Nat) : Except PyErr ℚ :=
  match deltaParam with
  | .auto => .ok (GAPNDP.resolveAutoDelta eps numTrainNodes)
  | .num _ => .error .unboundLocalError

/-- The delta value `GAP.init_privacy_mechanisms` passes to
  `composed_mech.calibrate` (`methods.py` lines 146-154): the auto-resolved
  value when `self.delta == 'auto'`, otherwise exactly the caller-supplied
  numeric `self.delta`. -/
def GAP.deltaUsedInCalibrate (deltaParam : DeltaParam) (eps : Eps)
    (dpLevel : DPLevel) (numEdges numNodes : Nat) : ℚ :=
  match deltaParam with
  | .auto => GAP.resolveAutoDelta eps dpLevel numEdges numNodes
  | .num q => q

/-! ### Randomized-operation traces of `precompute_aggregations` and `fit` -/

/-- Sensitivity value passed to the PMA mechanism, kept symbolic: the Python
  code passes the float `1` or `np.sqrt(max_degree)`. -/
inductive Sens
  | one
  | sqrtMaxDegree (d : Int)
deriving DecidableEq, Repr

/-- One observable action of the training pipeline, in execution order:
  `neighborSampler d` is the `NeighborSampler(max_degree)` degree-bounding
  transform, `pmaResetNoise s` is `pma_mechanism.update(noise_scale=s)`,
  `topMFilter` is the `TopMFilter` graph perturbation, `pmaAggregate s sn`
  is one noisy hop aggregation performed by the PMA mechanism with noise
  scale `s` and sensitivity `sn`, `pretrainEpoch` is one encoder
  pre-training epoch, and `classifierEpoch` is one classifier training
  epoch. -/
inductive Action
  | neighborSampler (d : Int)
  | pmaResetNoise (s : ℚ)
  | topMFilter
  | pmaAggregate (s : ℚ) (sn : Sens)
  | pretrainEpoch
  | classifierEpoch
deriving DecidableEq, Repr

/-- Modelled from the spec: the PMA mechanism (§4.2) applies Gaussian noise
  of scale `noise_scale × sensitivity` to each of `hops` sequential
  aggregation results — one noisy aggregation per hop.  (The body of the
  `PMA` class is not under `src/`; its call sites in
  `GAP.precompute_aggregations` and `GAPNDP.aggregate` are.) -/
def pmaCallTrace (noiseScale : ℚ) (hops : Nat) (sn : Sens) : List Action :=
  List.replicate hops (.pmaAggregate noiseScale sn)

/-- Sensitivity computed by `GAP.precompute_aggregations` (`methods.py`
  line 207): `sensitivity = 1 if self.dp_level == 'edge' else
  np.sqrt(self.max_degree)`. -/
def GAP.sensitivity (c : GAPConfig) : Sens :=
  if c.dpLevel = .edge then .one else .sqrtMaxDegree c.maxDegree

/-- Trace of `GAP.precompute_aggregations` (`methods.py` lines 200-209).
  `pmaScale` is the PMA mechanism's noise scale when the method is entered
  (the calibrated value).  The code first runs
  `NeighborSampler(max_degree)` if `dp_level == 'node' and hops > 0`, or
  else (elif) resets the PMA noise scale to 0 and applies the `TopMFilter`
  graph mechanism if `perturbation == 'graph'`; it then calls the PMA
  mechanism once on the data with the computed sensitivity. -/
def GAP.precomputeTrace (c : GAPConfig) (pmaScale : ℚ) : List Action :=
  if c.dpLevel = .node ∧ 0 < c.hops then
    .neighborSampler c.maxDegree :: pmaCallTrace pmaScale c.hops (GAP.sensitivity c)
  else if c.perturbation = .graph then
    .pmaResetNoise 0 :: .topMFilter :: pmaCallTrace 0 c.hops (GAP.sensitivity c)
  else
    pmaCallTrace pmaScale c.hops (GAP.sensitivity c)

/-- Trace of `GAPNDP.precompute_aggregations` (`gap_ndp.py` lines 88-96):
  it always applies `NeighborSampler(max_degree)` first and then calls
  `super().precompute_aggregations()`.  The parent `GAPINF` loop is not
  under `src/`; modelled from the spec (§4.2: one noisy aggregation per
  hop), with each hop performed by `GAPNDP.aggregate` (`gap_ndp.py` lines
  93-96), which calls the PMA mechanism with sensitivity
  `np.sqrt(self.max_degree)`. -/
def GAPNDP.precomputeTrace (c : NDPConfig) (pmaScale : ℚ) : List Action :=
  .neighborSampler c.maxDegree ::
    pmaCallTrace pmaScale c.hops (.sqrtMaxDegree c.maxDegree)

/-- Trace of `GAP.fit` (`methods.py` lines 157-171) after calibration:
  `pretrain_encoder` (which trains for `pre_epochs` epochs when
  `encoder_layers > 0` and does nothing otherwise, lines 173-198), then
  `precompute_aggregations`, then `train_classifier` (which trains for
  `epochs` epochs, lines 211-233). -/
def GAP.fitTrace (c : GAPConfig) (pmaScale : ℚ) : List Action :=
  (if 0 < c.encoderLayers then List.replicate c.preEpochs .pretrainEpoch else [])
  ++ GAP.precomputeTrace c pmaScale
  ++ List.replicate c.epochs .classifierEpoch

/-- Recognizer for noisy hop-aggregation events. -/
def isPmaAggregate : Action → Bool
  | .pmaAggregate _ _ => true
  | _ => false

/-! ### Mechanism / noise-scale lifecycle across `fit` calls -/

/-- Lifecycle-relevant state of a `GAP` instance (`methods.py`):
  `noiseScale` is `self.noise_scale`, `constructedScales` records, per
  `init_privacy_mechanisms` call, the noise scale the mechanisms of that
  call were constructed with, `calibrations` counts `composed_mech.calibrate`
  calls, and `fitSizes` records the dataset size seen by each `fit` call. -/
structure GAPLifeState where
  noiseScale : ℚ
  constructedScales : List ℚ
  calibrations : Nat
  fitSizes : List Nat
deriving DecidableEq, Repr

/-- State of a freshly constructed `GAP` instance: `self.noise_scale = 0.0`
  (`methods.py` line 75), no mechanisms constructed, no calibrations run. -/
def GAP.initLifeState : GAPLifeState :=
  { noiseScale := 0, constructedScales := [], calibrations := 0, fitSizes := [] }

/-- Effect of one `GAP.fit(data)` call on the lifecycle state
  (`methods.py` lines 157-159 and 110-155): `fit` unconditionally calls
  `init_privacy_mechanisms`, which constructs fresh mechanisms with
  `noise_scale=self.noise_scale` (its *current* value, lines 111-137) and
  unconditionally runs `composed_mech.calibrate` (line 154), overwriting
  `self.noise_scale` with the result `calibResult` (supplied here as a
  parameter standing for the numeric search's output). -/
def GAP.fitLifecycle (calibResult : ℚ) (dataSize : Nat) (s : GAPLifeState) :
    GAPLifeState :=
  { noiseScale := calibResult
    constructedScales := s.constructedScales ++ [s.noiseScale]
    calibrations := s.calibrations + 1
    fitSizes := s.fitSizes ++ [dataSize] }

/-- Lifecycle-relevant state of a `GAPNDP` instance (`gap_ndp.py`):
  `numTrainNodes` is `self.num_train_nodes` (`None` initially, line 39),
  `constructedScales` records the noise scale each constructed mechanism got,
  and `calibrations` counts `composed_mechanism.calibrate` calls. -/
structure NDPLifeState where
  noiseScale : ℚ
  numTrainNodes : Option Nat
  constructedScales : List ℚ
  calibrations : Nat
deriving DecidableEq, Repr

/-- State of a freshly constructed `GAPNDP` instance. -/
def GAPNDP.initLifeState : NDPLifeState :=
  { noiseScale := 0, numTrainNodes := none, constructedScales := [], calibrations := 0 }

/-- Effect of one `GAPNDP.fit(data)` call on the lifecycle state
  (`gap_ndp.py` lines 78-86 and 42-73): `calibrate` runs only when the
  number of training nodes differs from the stored one; it constructs the
  PMA mechanism and the two `NoisySGD` mechanisms, each with
  `noise_scale=0.0` (lines 43-59), and overwrites `self.noise_scale` with
  the result of `composed_mechanism.calibrate` (line 72, supplied here as
  the parameter `calibResult`). -/
def GAPNDP.fitLifecycle (calibResult : ℚ) (numTrainNodes : Nat)
    (s : NDPLifeState) : NDPLifeState :=
  if s.numTrainNodes = some numTrainNodes then s
  else
    { noiseScale := calibResult
      numTrainNodes := some numTrainNodes
      constructedScales := s.constructedScales ++ [0, 0, 0]
      calibrations := s.calibrations + 1 }

/-! ### Node membership inference: attack sample generation -/

/-- Boolean-mask row selection, `logits[mask]` in torch: keeps, in order,
  the rows whose mask entry is `true`. -/
def maskedRows : List Bool → List (List ℚ) → List (List ℚ)
  | true :: ms, r :: rs => r :: maskedRows ms rs
  | false :: ms, _ :: rs => maskedRows ms rs
  | _, _ => []

/-- Integer-tensor row selection, `rows[perm]` in torch: picks the rows at
  the given indices, in the order of `perm`. -/
def selectRows (rows : List (List ℚ)) (perm : List Nat) : List (List ℚ) :=
  perm.map (fun i => rows.getD i [])

/-- Descending insertion into a sorted list (helper for `sortRowDesc`). -/
def insertDesc (a : ℚ) : List ℚ → List ℚ
  | [] => [a]
  | b :: t => if b ≤ a then a :: b :: t else b :: insertDesc a t

/-- `x.sort(dim=1, descending=True).values` applied to one row: the row's
  values in descending order. -/
def sortRowDesc (r : List ℚ) : List ℚ :=
  r.foldr insertDesc []

/-- `NodeMembershipInference.generate_attack_samples`
  (`src/core/attacks/nmi.py` lines 18-47).  `num_train`/`num_test` are the
  mask sums, `num_half = min(num_train, num_test)`; `pos_samples` are
  `num_half` rows of `logits[train_mask]` picked by a random permutation of
  `range(num_train)` (modelled by the input list `permTrain`, of which the
  first `num_half` entries are used), `neg_samples` likewise from
  `logits[test_mask]` via `permTest`; `x` is `neg_samples` followed by
  `pos_samples` (sorted per row in descending order when `self.sort_scores`
  is set, line 44-45), and `y` is `num_half` zeros followed by `num_half`
  ones.  The entropy computation at lines 33-36 only logs and does not
  affect the returned pair. -/
def generate_attack_samples (trainMask testMask : List Bool)
    (logits : List (List ℚ)) (permTrain permTest : List Nat)
    (sortScores : Bool) : List (List ℚ) × List Nat :=
  let numTrain := trainMask.count true
  let numTest := testMask.count true
  let numHalf := min numTrain numTest
  let posSamples := selectRows (maskedRows trainMask logits) (permTrain.take numHalf)
  let negSamples := selectRows (maskedRows testMask logits) (permTest.take numHalf)
  let x := negSamples ++ posSamples
  let y := List.replicate numHalf (0 : Nat) ++ List.replicate numHalf 1
  ((if sortScores then x.map sortRowDesc else x), y)

/-! ## Helper lemmas -/

/-- A number is strictly below `10` to its digit count. -/
theorem lt_ten_pow_numDigits (n : Nat) : n < 10 ^ numDigits n := by
  induction n using Nat.strong_induction_on with
  | _ n ih =>
    rw [numDigits]
    split
    · next h => simpa using h
    · next h =>
      have hd : n / 10 < n := Nat.div_lt_self (by omega) (by omega)
      have hrec := ih (n / 10) hd
      have h1 : n / 10 + 1 ≤ 10 ^ numDigits (n / 10) := hrec
      have h2 : n < 10 * (n / 10) + 10 := by omega
      calc n < 10 * (n / 10) + 10 := h2
        _ = 10 * (n / 10 + 1) := by ring
        _ ≤ 10 * 10 ^ numDigits (n / 10) := by omega
        _ = 10 ^ (numDigits (n / 10) + 1) := by rw [pow_succ]; ring

/-- The auto-resolved delta is strictly below the reciprocal of the data
  size it was derived from. -/
theorem auto_delta_lt_inv (m : Nat) (hm : 1 ≤ m) :
    (1 : ℚ) / 10 ^ numDigits m < 1 / m := by
  have h : (m : ℚ) < 10 ^ numDigits m := by
    exact_mod_cast lt_ten_pow_numDigits m
  have hm' : (0 : ℚ) < m := by exact_mod_cast hm
  exact one_div_lt_one_div_of_lt hm' h

/-- Elements of a PMA call trace are exactly the hop aggregations of that
  call. -/
theorem eq_of_mem_pmaCallTrace {a : Action} {s : ℚ} {h : Nat} {sn : Sens}
    (ha : a ∈ pmaCallTrace s h sn) : a = .pmaAggregate s sn :=
  List.eq_of_mem_replicate ha

/-- Case analysis on the elements of `GAP.precompute_aggregations`' trace:
  the neighbor sampler, the PMA noise reset, the `TopMFilter` application,
  or a PMA hop aggregation carrying the computed sensitivity. -/
theorem mem_gap_precomputeTrace {a : Action} (g : GAPConfig) (sc : ℚ)
    (ha : a ∈ GAP.precomputeTrace g sc) :
    a = .neighborSampler g.maxDegree ∨ a = .pmaResetNoise 0 ∨ a = .topMFilter
      ∨ ∃ s, a = .pmaAggregate s (GAP.sensitivity g) := by
  unfold GAP.precomputeTrace at ha
  split at ha
  · rcases List.mem_cons.mp ha with h | h
    · exact Or.inl h
    · exact Or.inr (Or.inr (Or.inr ⟨sc, eq_of_mem_pmaCallTrace h⟩))
  · split at ha
    · rcases List.mem_cons.mp ha with h | h
      · exact Or.inr (Or.inl h)
      · rcases List.mem_cons.mp h with h2 | h2
        · exact Or.inr (Or.inr (Or.inl h2))
        · exact Or.inr (Or.inr (Or.inr ⟨0, eq_of_mem_pmaCallTrace h2⟩))
    · exact Or.inr (Or.inr (Or.inr ⟨sc, eq_of_mem_pmaCallTrace ha⟩))

/-- A hop aggregation can only appear in `GAP.precompute_aggregations`'
  trace when the configured number of hops is positive. -/
theorem pos_hops_of_pma_mem {g : GAPConfig} {sc s : ℚ} {sn : Sens}
    (h : Action.pmaAggregate s sn ∈ GAP.precomputeTrace g sc) : 0 < g.hops := by
  rcases Nat.eq_zero_or_pos g.hops with h0 | h0
  · exfalso
    unfold GAP.precomputeTrace at h
    rw [h0] at h
    split at h
    · next hc => exact absurd hc.2 (by omega)
    · split at h
      · simp [pmaCallTrace] at h
      · simp [pmaCallTrace] at h
  · exact h0

/-- Unfolding of the `GAP.__init__` assert conjunction into propositions. -/
theorem gapInitOk_iff (g : GAPConfig) :
    GAP.initOk g = true ↔
      ((g.dpLevel = .edge ∨ g.perturbation = .aggr)
        ∧ (g.dpLevel = .edge ∨ g.hops = 0 ∨ 0 < g.maxDegree)
        ∧ (g.dpLevel = .edge ∨ 0 < g.batchSize)
        ∧ (g.encoderLayers = 0 ∨ 0 < g.preEpochs)) := by
  simp only [GAP.initOk, Bool.and_eq_true, Bool.or_eq_true, beq_iff_eq,
    decide_eq_true_iff]
  tauto

/-- Unfolding of the `GraphSAGEModel.__init__` assert conjunction. -/
theorem sageInitOk_iff (s : SAGEConfig) :
    SAGE.initOk s = true ↔
      (1 ≤ s.mpLayers
        ∧ (s.dpLevel = .edge ∨ s.mpLayers = 1)
        ∧ (s.dpLevel = .edge ∨ 0 < s.maxDegree)
        ∧ (s.dpLevel = .edge ∨ 0 < s.batchSize)) := by
  simp only [SAGE.initOk, Bool.and_eq_true, Bool.or_eq_true, beq_iff_eq,
    decide_eq_true_iff]
  tauto

/-! ## Claim theorems -/

/-- C5: under node-level DP, `max_degree ≤ 0` together with `hops > 0`
  (for GAP; GraphSAGEModel rejects `max_degree ≤ 0` outright), and
  `batch_size ≤ 0`, each make the constructor's assert conjunction fail, so
  construction aborts before any training or calibration code runs; and the
  assert conjunction holds exactly on the valid configurations, which
  therefore construct without error. -/
theorem construction_rejects_invalid_node_dp_shapes (g : GAPConfig) (s : SAGEConfig) :
    (g.dpLevel = .node → 0 < g.hops → g.maxDegree ≤ 0 → GAP.initOk g = false)
    ∧ (g.dpLevel = .node → g.batchSize ≤ 0 → GAP.initOk g = false)
    ∧ (s.dpLevel = .node → s.maxDegree ≤ 0 → SAGE.initOk s = false)
    ∧ (s.dpLevel = .node → s.batchSize ≤ 0 → SAGE.initOk s = false)
    ∧ (GAP.initOk g = true ↔
        ((g.dpLevel = .edge ∨ g.perturbation = .aggr)
          ∧ (g.dpLevel = .edge ∨ g.hops = 0 ∨ 0 < g.maxDegree)
          ∧ (g.dpLevel = .edge ∨ 0 < g.batchSize)
          ∧ (g.encoderLayers = 0 ∨ 0 < g.preEpochs)))
    ∧ (SAGE.initOk s = true ↔
        (1 ≤ s.mpLayers
          ∧ (s.dpLevel = .edge ∨ s.mpLayers = 1)
          ∧ (s.dpLevel = .edge ∨ 0 < s.maxDegree)
          ∧ (s.dpLevel = .edge ∨ 0 < s.batchSize))) := by
  refine ⟨?_, ?_, ?_, ?_, gapInitOk_iff g, sageInitOk_iff s⟩
  · intro hn hh hm
    rcases Bool.eq_false_or_eq_true (GAP.initOk g) with h | h
    · exfalso
      rcases (gapInitOk_iff g).mp h with ⟨_, h2, _, _⟩
      rcases h2 with he | h0 | hp
      · rw [hn] at he; exact absurd he (by decide)
      · omega
      · omega
    · exact h
  · intro hn hb
    rcases Bool.eq_false_or_eq_true (GAP.initOk g) with h | h
    · exfalso
      rcases (gapInitOk_iff g).mp h with ⟨_, _, h3, _⟩
      rcases h3 with he | hp
      · rw [hn] at he; exact absurd he (by decide)
      · omega
    · exact h
  · intro hn hm
    rcases Bool.eq_false_or_eq_true (SAGE.initOk s) with h | h
    · exfalso
      rcases (sageInitOk_iff s).mp h with ⟨_, _, h3, _⟩
      rcases h3 with he | hp
      · rw [hn] at he; exact absurd he (by decide)
      · omega
    · exact h
  · intro hn hb
    rcases Bool.eq_false_or_eq_true (SAGE.initOk s) with h | h
    · exfalso
      rcases (sageInitOk_iff s).mp h with ⟨_, _, _, h4⟩
      rcases h4 with he | hp
      · rw [hn] at he; exact absurd he (by decide)
      · omega
    · exact h

/-- C5 witness: a node-level GAP configuration with `hops = 2`,
  `max_degree = 0` is rejected, and a valid node-level GraphSAGEModel
  configuration is accepted. -/
theorem construction_rejects_invalid_node_dp_shapes_witness :
    GAP.initOk ⟨.node, .aggr, 2, 0, 256, 0, 0, 100⟩ = false
    ∧ SAGE.initOk ⟨.node, 1, 10, 256, 100⟩ = true :=
  ⟨(construction_rejects_invalid_node_dp_shapes
      ⟨.node, .aggr, 2, 0, 256, 0, 0, 100⟩ ⟨.node, 1, 10, 256, 100⟩).1
      rfl (by decide) (by decide),
   (construction_rejects_invalid_node_dp_shapes
      ⟨.node, .aggr, 2, 0, 256, 0, 0, 100⟩
      ⟨.node, 1, 10, 256, 100⟩).2.2.2.2.2.mpr (by decide)⟩

/-- C1 counterexample: a `GraphSAGEModel` validly configured with node-level
  DP (`mp_layers=1`, `max_degree=10`, `batch_size=256`) passes the
  constructor asserts, yet its training data loader is a fixed-size
  shuffling `NeighborLoader`, not the Poisson sampler the claim requires
  for every node-level method. -/
theorem node_dp_train_loader_counterexample :
    SAGE.initOk ⟨.node, 1, 10, 256, 100⟩ = true
    ∧ SAGE.dataLoaderKind ⟨.node, 1, 10, 256, 100⟩ .train = .neighborShuffle
    ∧ ¬ SAGE.dataLoaderKind ⟨.node, 1, 10, 256, 100⟩ .train = .poisson := by
  decide

/-- C1 amended: `GAP` (at any DP level) and `GAPNDP` draw training
  minibatches with the Poisson sampler, but `GraphSAGEModel` under
  node-level DP uses a fixed-size shuffling `NeighborLoader` for training
  instead. -/
theorem node_dp_train_loader_kinds (g : GAPConfig) (base : LoaderKind)
    (s : SAGEConfig) (hs : s.dpLevel = .node) (hok : SAGE.initOk s = true) :
    GAP.dataLoaderKind g .train = .poisson
    ∧ GAPNDP.dataLoaderKind base .train = .poisson
    ∧ SAGE.dataLoaderKind s .train = .neighborShuffle := by
  refine ⟨rfl, rfl, ?_⟩
  rcases (sageInitOk_iff s).mp hok with ⟨_, _, _, h4⟩
  have hbs : 0 < s.batchSize := by
    rcases h4 with he | hp
    · rw [hs] at he; exact absurd he (by decide)
    · exact hp
  unfold SAGE.dataLoaderKind
  rw [if_neg (by omega : ¬ s.batchSize = 0)]

/-- C1 amended witness: concrete node-level configurations. -/
theorem node_dp_train_loader_kinds_witness :
    GAP.dataLoaderKind ⟨.node, .aggr, 2, 10, 256, 2, 100, 100⟩ .train = .poisson
    ∧ GAPNDP.dataLoaderKind .inherited .train = .poisson
    ∧ SAGE.dataLoaderKind ⟨.node, 1, 10, 256, 100⟩ .train = .neighborShuffle :=
  node_dp_train_loader_kinds ⟨.node, .aggr, 2, 10, 256, 2, 100, 100⟩
    .inherited ⟨.node, 1, 10, 256, 100⟩ rfl (by decide)

/-- C4 (code bug): whenever the caller supplies a numeric `delta`,
  `GAPNDP.calibrate` never reaches the calibration call with that value —
  the local variable `delta` is only assigned in the `'auto'` branch, so
  the call site raises `UnboundLocalError` instead of completing (or
  raising `CalibrationError`).  `GAP.init_privacy_mechanisms`, by contrast,
  passes the caller's numeric delta through exactly. -/
theorem gapndp_numeric_delta_unbound_local (q : ℚ) (eps : Eps) (n : Nat)
    (dpLevel : DPLevel) (numEdges numNodes : Nat) :
    GAPNDP.deltaUsedInCalibrate (.num q) eps n = .error .unboundLocalError
    ∧ GAP.deltaUsedInCalibrate (.num q) eps dpLevel numEdges numNodes = q :=
  ⟨rfl, rfl⟩

/-- C6 counterexample: two consecutive `GAP.fit` calls on the same
  100-record dataset run the calibration twice (the claim allows exactly
  one, with recalibration only on a dataset-size change), and the second
  `init_privacy_mechanisms` call constructs its mechanisms with the
  previously calibrated noise scale 1, not 0. -/
theorem gap_lifecycle_counterexample :
    (GAP.fitLifecycle 1 100 (GAP.fitLifecycle 1 100 GAP.initLifeState)).calibrations = 2
    ∧ (GAP.fitLifecycle 1 100 (GAP.fitLifecycle 1 100 GAP.initLifeState)).fitSizes
        = [100, 100]
    ∧ (GAP.fitLifecycle 1 100 (GAP.fitLifecycle 1 100 GAP.initLifeState)).constructedScales
        = [0, 1] := by
  refine ⟨rfl, rfl, ?_⟩
  simp [GAP.fitLifecycle, GAP.initLifeState]

/-- C6 amended: `GAPNDP` constructs its mechanisms with `noise_scale = 0`
  inside `calibrate()`, which runs exactly when the number of training
  nodes changes, each run fully overwriting `self.noise_scale`; `GAP`
  (`methods.py`) instead reconstructs its mechanisms — seeded with the
  current `self.noise_scale` — and recalibrates on every `fit()` call. -/
theorem mechanism_lifecycle (c c' : ℚ) (n n' : Nat) (s : NDPLifeState)
    (t : GAPLifeState) :
    ((GAPNDP.fitLifecycle c n s).calibrations
      = s.calibrations + (if s.numTrainNodes = some n then 0 else 1))
    ∧ ((GAPNDP.fitLifecycle c n s).noiseScale
      = if s.numTrainNodes = some n then s.noiseScale else c)
    ∧ (∀ q ∈ (GAPNDP.fitLifecycle c n s).constructedScales,
        q ∈ s.constructedScales ∨ q = 0)
    ∧ ((GAP.fitLifecycle c' n' t).calibrations = t.calibrations + 1)
    ∧ ((GAP.fitLifecycle c' n' t).noiseScale = c')
    ∧ ((GAP.fitLifecycle c' n' t).constructedScales
      = t.constructedScales ++ [t.noiseScale]) := by
  refine ⟨?_, ?_, ?_, rfl, rfl, rfl⟩
  · by_cases h : s.numTrainNodes = some n <;>
      simp [GAPNDP.fitLifecycle, h]
  · by_cases h : s.numTrainNodes = some n <;>
      simp [GAPNDP.fitLifecycle, h]
  · intro q hq
    by_cases h : s.numTrainNodes = some n <;>
      simp [GAPNDP.fitLifecycle, h] at hq <;> tauto

/-- C6 amended witness: a fresh `GAPNDP` instance fitted on 500 training
  nodes calibrates once, with all mechanisms constructed at noise scale 0. -/
theorem mechanism_lifecycle_witness :
    (GAPNDP.fitLifecycle 2 500 GAPNDP.initLifeState).calibrations = 1
    ∧ (GAPNDP.fitLifecycle 2 500 GAPNDP.initLifeState).noiseScale = 2
    ∧ (∀ q ∈ (GAPNDP.fitLifecycle 2 500 GAPNDP.initLifeState).constructedScales,
        q ∈ GAPNDP.initLifeState.constructedScales ∨ q = 0) := by
  have h := mechanism_lifecycle 2 2 500 500 GAPNDP.initLifeState GAP.initLifeState
  refine ⟨?_, ?_, h.2.2.1⟩
  · rw [h.1]; rfl
  · rw [h.2.1]; rfl

/-- C8: with `delta='auto'`, every method resolves delta to `0` exactly when
  epsilon is infinite, and otherwise to `10^(-d)` where `d` is the decimal
  digit count of its data size (`GAP`: `num_edges` for edge-level DP and
  `num_nodes` for node-level DP; `GraphSAGEModel`: `num_edges` at either DP
  level; `GAPNDP`: the number of training nodes), which is strictly smaller
  than the reciprocal of that data size. -/
theorem auto_delta_resolution (q : ℚ) (l : DPLevel)
    (numEdges numNodes nTrain : Nat) (hE : 1 ≤ numEdges) (hN : 1 ≤ numNodes)
    (hT : 1 ≤ nTrain) :
    GAP.resolveAutoDelta .inf l numEdges numNodes = 0
    ∧ SAGE.resolveAutoDelta .inf numEdges = 0
    ∧ GAPNDP.resolveAutoDelta .inf nTrain = 0
    ∧ GAP.resolveAutoDelta (.fin q) l numEdges numNodes
        = 1 / 10 ^ numDigits (if l = .edge then numEdges else numNodes)
    ∧ SAGE.resolveAutoDelta (.fin q) numEdges = 1 / 10 ^ numDigits numEdges
    ∧ GAPNDP.resolveAutoDelta (.fin q) nTrain = 1 / 10 ^ numDigits nTrain
    ∧ GAP.resolveAutoDelta (.fin q) l numEdges numNodes
        < 1 / ((if l = .edge then numEdges else numNodes : Nat) : ℚ)
    ∧ SAGE.resolveAutoDelta (.fin q) numEdges < 1 / (numEdges : ℚ)
    ∧ GAPNDP.resolveAutoDelta (.fin q) nTrain < 1 / (nTrain : ℚ) := by
  refine ⟨rfl, rfl, rfl, rfl, rfl, rfl, ?_, ?_, ?_⟩
  · unfold GAP.resolveAutoDelta
    rw [if_neg (by simp : ¬ (Eps.fin q) = .inf)]
    rcases l with _ | _
    · simpa using auto_delta_lt_inv numEdges hE
    · simpa using auto_delta_lt_inv numNodes hN
  · unfold SAGE.resolveAutoDelta
    rw [if_neg (by simp : ¬ (Eps.fin q) = .inf)]
    exact auto_delta_lt_inv numEdges hE
  · unfold GAPNDP.resolveAutoDelta
    rw [if_neg (by simp : ¬ (Eps.fin q) = .inf)]
    exact auto_delta_lt_inv nTrain hT

/-- C8 witness: a graph with 2708 nodes, 10556 edges and 140 training nodes
  under node-level DP at epsilon 1. -/
theorem auto_delta_resolution_witness :
    GAP.resolveAutoDelta (.fin 1) .node 10556 2708 = 1 / 10 ^ numDigits 2708
    ∧ GAPNDP.resolveAutoDelta (.fin 1) 140 < 1 / (140 : ℚ) := by
  have h := auto_delta_resolution 1 .node 10556 2708 140 (by omega) (by omega)
    (by omega)
  refine ⟨?_, h.2.2.2.2.2.2.2.2⟩
  have h4 := h.2.2.2.1
  simpa using h4

/-- C2: every hop aggregation performed by
  `GAP.precompute_aggregations`/`GAPNDP.aggregate` passes sensitivity
  exactly `1` to the PMA mechanism when `dp_level` is `'edge'` and exactly
  `sqrt(max_degree)` when it is `'node'`; `GAPNDP` always passes
  `sqrt(max_degree)`. -/
theorem pma_sensitivity (g : GAPConfig) (nc : NDPConfig) (sc sc' : ℚ) :
    (∀ s sn, Action.pmaAggregate s sn ∈ GAP.precomputeTrace g sc →
      sn = if g.dpLevel = .edge then Sens.one else Sens.sqrtMaxDegree g.maxDegree)
    ∧ (∀ s sn, Action.pmaAggregate s sn ∈ GAPNDP.precomputeTrace nc sc' →
      sn = Sens.sqrtMaxDegree nc.maxDegree) := by
  constructor
  · intro s sn h
    rcases mem_gap_precomputeTrace g sc h with h | h | h | ⟨s', h⟩
    · simp at h
    · simp at h
    · simp at h
    · rw [Action.pmaAggregate.injEq] at h
      exact h.2.trans (by simp [GAP.sensitivity])
  · intro s sn h
    unfold GAPNDP.precomputeTrace at h
    rcases List.mem_cons.mp h with h | h
    · simp at h
    · have h2 := eq_of_mem_pmaCallTrace h
      rw [Action.pmaAggregate.injEq] at h2
      exact h2.2

/-- C2 witness: a node-level `GAPNDP` aggregation with `max_degree = 10`. -/
theorem pma_sensitivity_witness :
    (Action.pmaAggregate 1 (Sens.sqrtMaxDegree 10)
        ∈ GAPNDP.precomputeTrace ⟨1, 10, 256, 0, 1⟩ 1)
    ∧ Sens.sqrtMaxDegree 10
        = Sens.sqrtMaxDegree (⟨1, 10, 256, 0, 1⟩ : NDPConfig).maxDegree :=
  ⟨by decide,
   (pma_sensitivity ⟨.edge, .aggr, 1, 10, 0, 2, 100, 100⟩ ⟨1, 10, 256, 0, 1⟩
      1 1).2 1 (Sens.sqrtMaxDegree 10) (by decide)⟩

/-- C3: whenever a PMA hop aggregation claims the node-level sensitivity
  `sqrt(max_degree)`, a `NeighborSampler(max_degree)` degree-bounding event
  occurs strictly earlier in the trace, for both `GAP` and `GAPNDP`; no
  execution path reaches a noisy aggregation with node-level sensitivity on
  an untruncated graph. -/
theorem neighbor_sampler_precedes_node_aggregation (g : GAPConfig)
    (nc : NDPConfig) (sc sc' : ℚ) :
    (∀ (i : Nat) (s : ℚ) (d : Int), (GAP.precomputeTrace g sc)[i]?
        = some (Action.pmaAggregate s (Sens.sqrtMaxDegree d)) →
      ∃ j, j < i ∧ (GAP.precomputeTrace g sc)[j]?
        = some (Action.neighborSampler g.maxDegree))
    ∧ (∀ (i : Nat) (s : ℚ) (d : Int), (GAPNDP.precomputeTrace nc sc')[i]?
        = some (Action.pmaAggregate s (Sens.sqrtMaxDegree d)) →
      ∃ j, j < i ∧ (GAPNDP.precomputeTrace nc sc')[j]?
        = some (Action.neighborSampler nc.maxDegree)) := by
  constructor
  · intro i s d hi
    by_cases hb : g.dpLevel = .node ∧ 0 < g.hops
    · have htr : GAP.precomputeTrace g sc
          = .neighborSampler g.maxDegree
            :: pmaCallTrace sc g.hops (GAP.sensitivity g) := by
        unfold GAP.precomputeTrace
        rw [if_pos hb]
      rw [htr] at hi ⊢
      cases i with
      | zero => simp at hi
      | succ i => exact ⟨0, Nat.succ_pos i, by simp⟩
    · exfalso
      have hmem := List.getElem?_mem hi
      have hhops := pos_hops_of_pma_mem hmem
      rcases mem_gap_precomputeTrace g sc hmem with h | h | h | ⟨s', h⟩
      · simp at h
      · simp at h
      · simp at h
      · injection h with _ h2
        have hdp : g.dpLevel = .edge := by
          cases hdp : g.dpLevel with
          | edge => rfl
          | node => exact absurd ⟨hdp, hhops⟩ hb
        unfold GAP.sensitivity at h2
        rw [if_pos hdp] at h2
        exact absurd h2 (by simp)
  · intro i s d hi
    unfold GAPNDP.precomputeTrace at hi ⊢
    cases i with
    | zero => simp at hi
    | succ i => exact ⟨0, Nat.succ_pos i, by simp⟩

/-- C3 witness: a node-level GAP configuration with one hop; the
  aggregation at trace position 1 is preceded by the neighbor sampler. -/
theorem neighbor_sampler_precedes_node_aggregation_witness :
    (GAP.precomputeTrace ⟨.node, .aggr, 1, 10, 256, 0, 0, 1⟩ 1)[1]?
        = some (Action.pmaAggregate 1 (Sens.sqrtMaxDegree 10))
    ∧ ∃ j, j < 1 ∧ (GAP.precomputeTrace ⟨.node, .aggr, 1, 10, 256, 0, 0, 1⟩ 1)[j]?
        = some (Action.neighborSampler 10) :=
  ⟨by decide,
   (neighbor_sampler_precedes_node_aggregation
      ⟨.node, .aggr, 1, 10, 256, 0, 0, 1⟩ ⟨1, 10, 256, 0, 1⟩ 1 1).1
      1 1 10 (by decide)⟩

/-- C9: in a validly constructed `GAP` with `perturbation='graph'` (which
  the constructor asserts forces edge-level DP), `precompute_aggregations`
  first resets the PMA noise scale to 0 and then applies the `TopMFilter`
  graph mechanism, and every subsequent PMA hop aggregation runs with noise
  scale 0 — the edge perturbation is the sole remaining randomized
  mechanism. -/
theorem graph_perturbation_disables_pma_noise (g : GAPConfig) (sc : ℚ)
    (hok : GAP.initOk g = true) (hp : g.perturbation = .graph) :
    GAP.precomputeTrace g sc
      = .pmaResetNoise 0 :: .topMFilter ::
          List.replicate g.hops (.pmaAggregate 0 Sens.one)
    ∧ ∀ s sn, Action.pmaAggregate s sn ∈ GAP.precomputeTrace g sc → s = 0 := by
  have hdp : g.dpLevel = .edge := by
    rcases (gapInitOk_iff g).mp hok with ⟨h1, _, _, _⟩
    rcases h1 with h | h
    · exact h
    · rw [hp] at h
      exact absurd h (by decide)
  have hsens : GAP.sensitivity g = .one := by
    simp [GAP.sensitivity, hdp]
  have htr : GAP.precomputeTrace g sc
      = .pmaResetNoise 0 :: .topMFilter
        :: pmaCallTrace 0 g.hops (GAP.sensitivity g) := by
    unfold GAP.precomputeTrace
    rw [if_neg (by simp [hdp]), if_pos hp]
  constructor
  · rw [htr, hsens]
    simp [pmaCallTrace]
  · intro s sn hmem
    rw [htr] at hmem
    rcases List.mem_cons.mp hmem with h | h
    · simp at h
    rcases List.mem_cons.mp h with h2 | h2
    · simp at h2
    · have h3 := eq_of_mem_pmaCallTrace h2
      rw [Action.pmaAggregate.injEq] at h3
      exact h3.1

/-- C9 witness: a concrete edge-level GAP configuration with graph
  perturbation and two hops. -/
theorem graph_perturbation_disables_pma_noise_witness :
    GAP.initOk ⟨.edge, .graph, 2, 10, 0, 2, 100, 100⟩ = true
    ∧ GAP.precomputeTrace ⟨.edge, .graph, 2, 10, 0, 2, 100, 100⟩ 3
        = .pmaResetNoise 0 :: .topMFilter ::
            List.replicate 2 (.pmaAggregate 0 Sens.one) :=
  ⟨by decide,
   (graph_perturbation_disables_pma_noise ⟨.edge, .graph, 2, 10, 0, 2, 100, 100⟩
      3 (by decide) rfl).1⟩

/-- C7: in `GAP.fit`'s trace, every PMA noise event lies strictly after
  every encoder pre-training epoch and strictly before every classifier
  training epoch, and the total number of PMA noise events is exactly
  `hops` — noise is added once at preprocessing time, independent of the
  number of training epochs, never re-drawn per training step. -/
theorem pma_noise_once_in_fit (g : GAPConfig) (sc : ℚ) :
    (∀ (i j : Nat) (s : ℚ) (sn : Sens),
      (GAP.fitTrace g sc)[i]? = some (Action.pmaAggregate s sn) →
      (GAP.fitTrace g sc)[j]? = some Action.pretrainEpoch → j < i)
    ∧ (∀ (i j : Nat) (s : ℚ) (sn : Sens),
      (GAP.fitTrace g sc)[i]? = some (Action.pmaAggregate s sn) →
      (GAP.fitTrace g sc)[j]? = some Action.classifierEpoch → i < j)
    ∧ (GAP.fitTrace g sc).countP isPmaAggregate = g.hops := by
  classical
  set pre := (if 0 < g.encoderLayers
      then List.replicate g.preEpochs Action.pretrainEpoch else [])
    with hpre
  set mid := GAP.precomputeTrace g sc with hmid
  set post := List.replicate g.epochs Action.classifierEpoch with hpost
  have hfit : GAP.fitTrace g sc = pre ++ (mid ++ post) := by
    unfold GAP.fitTrace
    rw [List.append_assoc]
  have hpreE : ∀ a ∈ pre, a = Action.pretrainEpoch := by
    intro a ha
    rw [hpre] at ha
    split at ha
    · exact List.eq_of_mem_replicate ha
    · simp at ha
  have hpostE : ∀ a ∈ post, a = Action.classifierEpoch := by
    intro a ha
    exact List.eq_of_mem_replicate (hpost ▸ ha)
  have hmidE : ∀ a ∈ mid, a ≠ Action.pretrainEpoch ∧ a ≠ Action.classifierEpoch := by
    intro a ha
    rcases mem_gap_precomputeTrace g sc (hmid ▸ ha) with h | h | h | ⟨s', h⟩ <;>
      · subst h
        exact ⟨by simp, by simp⟩
  have hlen_pma : ∀ (i : Nat) (s : ℚ) (sn : Sens),
      (GAP.fitTrace g sc)[i]? = some (Action.pmaAggregate s sn) →
      pre.length ≤ i ∧ i < pre.length + mid.length := by
    intro i s sn hi
    rw [hfit] at hi
    constructor
    · by_contra hlt
      push_neg at hlt
      rw [List.getElem?_append_left hlt] at hi
      have h := hpreE _ (List.getElem?_mem hi)
      simp at h
    · by_contra hge
      push_neg at hge
      have h1 : pre.length ≤ i := le_trans (Nat.le_add_right _ _) hge
      rw [List.getElem?_append_right h1] at hi
      have h2 : mid.length ≤ i - pre.length := by omega
      rw [List.getElem?_append_right h2] at hi
      have h := hpostE _ (List.getElem?_mem hi)
      simp at h
  have hpretrain_lt : ∀ j : Nat,
      (GAP.fitTrace g sc)[j]? = some Action.pretrainEpoch → j < pre.length := by
    intro j hj
    by_contra hge
    push_neg at hge
    rw [hfit, List.getElem?_append_right hge] at hj
    rcases List.mem_append.mp (List.getElem?_mem hj) with h | h
    · exact (hmidE _ h).1 rfl
    · have h2 := hpostE _ h
      simp at h2
  have hcls_ge : ∀ j : Nat,
      (GAP.fitTrace g sc)[j]? = some Action.classifierEpoch →
      pre.length + mid.length ≤ j := by
    intro j hj
    by_contra hlt
    push_neg at hlt
    rw [hfit] at hj
    rcases Nat.lt_or_ge j pre.length with h | h
    · rw [List.getElem?_append_left h] at hj
      have h2 := hpreE _ (List.getElem?_mem hj)
      simp at h2
    · rw [List.getElem?_append_right h] at hj
      have h2 : j - pre.length < mid.length := by omega
      rw [List.getElem?_append_left h2] at hj
      exact (hmidE _ (List.getElem?_mem hj)).2 rfl
  have hcount_mid : mid.countP isPmaAggregate = g.hops := by
    rw [hmid]
    unfold GAP.precomputeTrace
    split
    · simp [pmaCallTrace, List.countP_cons, List.countP_replicate, isPmaAggregate]
    · split
      · simp [pmaCallTrace, List.countP_cons, List.countP_replicate, isPmaAggregate]
      · simp [pmaCallTrace, List.countP_replicate, isPmaAggregate]
  have hcount : (GAP.fitTrace g sc).countP isPmaAggregate = g.hops := by
    rw [hfit, List.countP_append, List.countP_append]
    have h1 : pre.countP isPmaAggregate = 0 := by
      rw [List.countP_eq_zero]
      intro a ha
      rw [hpreE a ha]
      simp [isPmaAggregate]
    have h3 : post.countP isPmaAggregate = 0 := by
      rw [List.countP_eq_zero]
      intro a ha
      rw [hpostE a ha]
      simp [isPmaAggregate]
    rw [h1, h3, hcount_mid]
    omega
  refine ⟨?_, ?_, hcount⟩
  · intro i j s sn hi hj
    have h1 := (hlen_pma i s sn hi).1
    have h2 := hpretrain_lt j hj
    omega
  · intro i j s sn hi hj
    have h1 := (hlen_pma i s sn hi).2
    have h2 := hcls_ge j hj
    omega

/-- C7 witness: an edge-level GAP run with one pre-training epoch, two hops
  and one classifier epoch; the fit trace is
  `[pretrainEpoch, pmaAggregate, pmaAggregate, classifierEpoch]`. -/
theorem pma_noise_once_in_fit_witness :
    (GAP.fitTrace ⟨.edge, .aggr, 2, 10, 0, 2, 1, 1⟩ 1)[1]?
        = some (Action.pmaAggregate 1 Sens.one)
    ∧ (0 : Nat) < 1
    ∧ (GAP.fitTrace ⟨.edge, .aggr, 2, 10, 0, 2, 1, 1⟩ 1).countP isPmaAggregate = 2 :=
  ⟨by decide,
   (pma_noise_once_in_fit ⟨.edge, .aggr, 2, 10, 0, 2, 1, 1⟩ 1).1 1 0 1 Sens.one
      (by decide) (by decide),
   (pma_noise_once_in_fit ⟨.edge, .aggr, 2, 10, 0, 2, 1, 1⟩ 1).2.2⟩

/-- Mask selection keeps exactly the rows at positions where the mask holds
  `true`. -/
theorem mem_maskedRows {r : List ℚ} : ∀ {ms : List Bool} {rs : List (List ℚ)},
    r ∈ maskedRows ms rs → ∃ j : Nat, ms[j]? = some true ∧ rs[j]? = some r := by
  intro ms
  induction ms with
  | nil =>
    intro rs h
    simp [maskedRows] at h
  | cons m ms ih =>
    intro rs h
    cases rs with
    | nil =>
      cases m <;> simp [maskedRows] at h
    | cons r' rs =>
      cases m with
      | false =>
        have h' : r ∈ maskedRows ms rs := by simpa [maskedRows] using h
        obtain ⟨j, hj1, hj2⟩ := ih h'
        exact ⟨j + 1, by simpa using hj1, by simpa using hj2⟩
      | true =>
        simp only [maskedRows] at h
        rcases List.mem_cons.mp h with h | h
        · exact ⟨0, by simp, by simp [h]⟩
        · obtain ⟨j, hj1, hj2⟩ := ih h
          exact ⟨j + 1, by simpa using hj1, by simpa using hj2⟩

/-- The number of rows kept by a boolean mask is the number of `true` mask
  entries (the tensor `mask.sum()` of the Python code). -/
theorem maskedRows_length : ∀ (ms : List Bool) (rs : List (List ℚ)),
    ms.length = rs.length → (maskedRows ms rs).length = ms.count true := by
  intro ms
  induction ms with
  | nil =>
    intro rs h
    simp [maskedRows]
  | cons m ms ih =>
    intro rs h
    cases rs with
    | nil => simp at h
    | cons r rs =>
      have h' : ms.length = rs.length := by simpa using h
      cases m with
      | true => simp [maskedRows, ih rs h', List.count_cons]
      | false => simp [maskedRows, ih rs h', List.count_cons]

/-- C10: for non-empty train and test masks whose mask lengths match the
  logits and whose random permutations cover the masked index ranges,
  `generate_attack_samples` returns a balanced attack set: with
  `n = min(#train, #test)`, `x` has `2n` rows — the first `n` drawn from
  test-mask nodes, the next `n` from train-mask nodes (each row optionally
  sorted descending) — and `y` is exactly `n` zeros followed by `n` ones. -/
theorem nmi_attack_samples_balanced
    (trainMask testMask : List Bool) (logits : List (List ℚ))
    (permTrain permTest : List Nat) (sortScores : Bool)
    (hTr : trainMask.length = logits.length)
    (hTe : testMask.length = logits.length)
    (hpTrLen : permTrain.length = trainMask.count true)
    (hpTeLen : permTest.length = testMask.count true)
    (hpTr : ∀ i ∈ permTrain, i < trainMask.count true)
    (hpTe : ∀ i ∈ permTest, i < testMask.count true)
    (h0Tr : 0 < trainMask.count true) (h0Te : 0 < testMask.count true) :
    (generate_attack_samples trainMask testMask logits permTrain permTest sortScores).1.length
        = 2 * min (trainMask.count true) (testMask.count true)
    ∧ (generate_attack_samples trainMask testMask logits permTrain permTest sortScores).2
        = List.replicate (min (trainMask.count true) (testMask.count true)) 0
          ++ List.replicate (min (trainMask.count true) (testMask.count true)) 1
    ∧ (∀ k : Nat, k < min (trainMask.count true) (testMask.count true) →
        ∃ (j : Nat) (r : List ℚ), testMask[j]? = some true ∧ logits[j]? = some r ∧
          (generate_attack_samples trainMask testMask logits permTrain permTest sortScores).1[k]?
            = some (if sortScores then sortRowDesc r else r))
    ∧ (∀ k : Nat, k < min (trainMask.count true) (testMask.count true) →
        ∃ (j : Nat) (r : List ℚ), trainMask[j]? = some true ∧ logits[j]? = some r ∧
          (generate_attack_samples trainMask testMask logits permTrain permTest
            sortScores).1[min (trainMask.count true) (testMask.count true) + k]?
            = some (if sortScores then sortRowDesc r else r)) := by
  classical
  have hlenTr : (maskedRows trainMask logits).length = trainMask.count true :=
    maskedRows_length _ _ hTr
  have hlenTe : (maskedRows testMask logits).length = testMask.count true :=
    maskedRows_length _ _ hTe
  set n := min (trainMask.count true) (testMask.count true) with hn
  set neg := selectRows (maskedRows testMask logits) (permTest.take n) with hneg
  set pos := selectRows (maskedRows trainMask logits) (permTrain.take n) with hpos
  have hx : (generate_attack_samples trainMask testMask logits permTrain permTest sortScores).1
      = if sortScores then (neg ++ pos).map sortRowDesc else neg ++ pos := rfl
  have hy : (generate_attack_samples trainMask testMask logits permTrain permTest sortScores).2
      = List.replicate n (0 : Nat) ++ List.replicate n 1 := rfl
  have hnegLen : neg.length = n := by
    rw [hneg]
    simp only [selectRows, List.length_map, List.length_take]
    omega
  have hposLen : pos.length = n := by
    rw [hpos]
    simp only [selectRows, List.length_map, List.length_take]
    omega
  refine ⟨?_, hy, ?_, ?_⟩
  · rw [hx]
    cases sortScores <;> simp only [if_true, if_false, Bool.false_eq_true,
      List.length_map, List.length_append] <;> omega
  · intro k hk
    have hk2 : k < (permTest.take n).length := by
      simp only [List.length_take]
      omega
    obtain ⟨i, hik⟩ : ∃ i, (permTest.take n)[k]? = some i :=
      ⟨_, List.getElem?_eq_getElem hk2⟩
    have hiTe : i < testMask.count true :=
      hpTe i (List.mem_of_mem_take (List.getElem?_mem hik))
    have hiRows : i < (maskedRows testMask logits).length := by omega
    have hgetD : (maskedRows testMask logits).getD i []
        = (maskedRows testMask logits)[i] := by
      rw [List.getD_eq_getElem?_getD, List.getElem?_eq_getElem hiRows]
      rfl
    obtain ⟨j, hj1, hj2⟩ :=
      mem_maskedRows (r := (maskedRows testMask logits).getD i [])
        (hgetD ▸ List.getElem_mem hiRows)
    refine ⟨j, (maskedRows testMask logits).getD i [], hj1, hj2, ?_⟩
    have hnegk : neg[k]? = some ((maskedRows testMask logits).getD i []) := by
      rw [hneg]
      simp only [selectRows, List.getElem?_map, hik, Option.map_some']
    rw [hx]
    cases sortScores
    · simp only [Bool.false_eq_true, if_false]
      rw [List.getElem?_append_left (by omega), hnegk]
    · simp only [if_true]
      rw [List.getElem?_map, List.getElem?_append_left (by omega), hnegk]
      rfl
  · intro k hk
    have hk2 : k < (permTrain.take n).length := by
      simp only [List.length_take]
      omega
    obtain ⟨i, hik⟩ : ∃ i, (permTrain.take n)[k]? = some i :=
      ⟨_, List.getElem?_eq_getElem hk2⟩
    have hiTr : i < trainMask.count true :=
      hpTr i (List.mem_of_mem_take (List.getElem?_mem hik))
    have hiRows : i < (maskedRows trainMask logits).length := by omega
    have hgetD : (maskedRows trainMask logits).getD i []
        = (maskedRows trainMask logits)[i] := by
      rw [List.getD_eq_getElem?_getD, List.getElem?_eq_getElem hiRows]
      rfl
    obtain ⟨j, hj1, hj2⟩ :=
      mem_maskedRows (r := (maskedRows trainMask logits).getD i [])
        (hgetD ▸ List.getElem_mem hiRows)
    refine ⟨j, (maskedRows trainMask logits).getD i [], hj1, hj2, ?_⟩
    have hposk : pos[k]? = some ((maskedRows trainMask logits).getD i []) := by
      rw [hpos]
      simp only [selectRows, List.getElem?_map, hik, Option.map_some']
    have happ : (neg ++ pos)[n + k]? = pos[k]? := by
      rw [List.getElem?_append_right (by omega)]
      rw [show n + k - neg.length = k by omega]
    rw [hx]
    cases sortScores
    · simp only [Bool.false_eq_true, if_false]
      rw [happ, hposk]
    · simp only [if_true]
      rw [List.getElem?_map, happ, hposk]
      rfl

/-- C10 witness: a two-node graph with one train node and one test node. -/
theorem nmi_attack_samples_balanced_witness :
    (0 : Nat) < [true, false].count true
    ∧ (generate_attack_samples [true, false] [false, true]
        [[1, 2], [3, 4]] [0] [0] false).1.length = 2 * 1
    ∧ (generate_attack_samples [true, false] [false, true]
        [[1, 2], [3, 4]] [0] [0] false).2
        = List.replicate 1 0 ++ List.replicate 1 1 :=
  ⟨by decide,
   (nmi_attack_samples_balanced [true, false] [false, true] [[1, 2], [3, 4]]
      [0] [0] false (by decide) (by decide) (by decide) (by decide)
      (by decide) (by decide) (by decide) (by decide)).1,
   (nmi_attack_samples_balanced [true, false] [false, true] [[1, 2], [3, 4]]
      [0] [0] false (by decide) (by decide) (by decide) (by decide)
      (by decide) (by decide) (by decide) (by decide)).2.1⟩

end GAPModel
